import Mathlib

/-
Verification development for the NationBuilderV2 connector
(src/parsons/nation_builder/nation_builder.py).

The Python code manipulates JSON-shaped dictionaries and issues HTTP
requests through an external transport (APIConnector).  The shallow
embedding below models:
  - JSON values as the inductive type PyVal; Python dicts as insertion
    ordered association lists with unique keys (List (String × PyVal)),
    with lookup / assignment / merge operations that follow CPython
    semantics (assignment to an existing key keeps its position; the
    dict union operator is last-write-wins);
  - functions that can raise as functions into Except Err;
  - the HTTP transport as an explicit oracle parameter
    (fetch : String → QItems → Page) recording what a GET at a given
    path with given query items returns;
  - the unbounded while-loop of _get_all with an explicit fuel
    parameter; Err.fuelOut marks exhaustion of the artificial fuel
    bound (it corresponds to no Python exception - every theorem below
    supplies enough fuel for its scenario, so fuelOut never appears in
    a conclusion).
-/

/-- JSON-shaped Python values: None, bool, int, str, list, dict. -/
inductive PyVal where
  | none : PyVal
  | bool : Bool → PyVal
  | int : Int → PyVal
  | str : String → PyVal
  | list : List PyVal → PyVal
  | dict : List (String × PyVal) → PyVal

/-- A Python dict with string keys, as an insertion-ordered association list. -/
abbrev PyDict : Type := List (String × PyVal)

/-- The exceptions the modelled code can raise.  fuelOut is not a Python
exception: it marks exhaustion of the fuel bound on the pagination loop. -/
inductive Err where
  | keyError : Err
  | valueError : Err
  | typeError : Err
  | fuelOut : Err
deriving DecidableEq

/-- Python dict lookup d[k]: first (and, for a real dict, only) binding of k. -/
def dlookup {α : Type} : List (String × α) → String → Option α
  | [], _ => Option.none
  | (k0, v) :: rest, k => if k0 = k then some v else dlookup rest k

/-- Python `k in d` membership test on a dict. -/
def dcontains {α : Type} (d : List (String × α)) (k : String) : Bool :=
  (dlookup d k).isSome

/-- Python dict assignment d[k] = v: overwrite in place if k is bound
(keeping its position), otherwise append the new binding. -/
def dictInsert {α : Type} (d : List (String × α)) (k : String) (v : α) :
    List (String × α) :=
  if (dlookup d k).isSome then
    d.map (fun p => if p.1 = k then (k, v) else p)
  else d ++ [(k, v)]

/-- Python dict union d1 | d2: fold the bindings of d2 into d1 by
assignment, so a key of d2 overwrites the value from d1 (last-write-wins). -/
def dictUnion {α : Type} (d1 d2 : List (String × α)) : List (String × α) :=
  d2.foldl (fun acc p => dictInsert acc p.1 p.2) d1

/-- Python truthiness of a JSON-shaped value ("if not x"). -/
def pyTruthy : PyVal → Bool
  | PyVal.none => false
  | PyVal.bool b => b
  | PyVal.int n => decide (n ≠ 0)
  | PyVal.str s => decide (s ≠ "")
  | PyVal.list l => !l.isEmpty
  | PyVal.dict d => !d.isEmpty

theorem dlookup_append {α : Type} (d1 d2 : List (String × α)) (k : String) :
    dlookup (d1 ++ d2) k =
      match dlookup d1 k with
      | some v => some v
      | Option.none => dlookup d2 k := by
  induction d1 with
  | nil => simp [dlookup]
  | cons p rest ih =>
    obtain ⟨k0, v0⟩ := p
    by_cases h : k0 = k
    · simp [dlookup, h]
    · simp [dlookup, h, ih]

theorem dlookup_map_overwrite {α : Type} (d : List (String × α)) (k : String) (v : α) :
    dlookup (d.map (fun p => if p.1 = k then (k, v) else p)) k =
      if (dlookup d k).isSome then some v else Option.none := by
  induction d with
  | nil => simp [dlookup]
  | cons p rest ih =>
    obtain ⟨k0, v0⟩ := p
    by_cases h : k0 = k
    · subst h
      have hhead : (if ((k0, v0) : String × α).1 = k0 then (k0, v) else (k0, v0)) =
          (k0, v) := by simp
      rw [List.map_cons, hhead]
      simp [dlookup]
    · have hhead : (if ((k0, v0) : String × α).1 = k then (k, v) else (k0, v0)) =
          (k0, v0) := by simp [h]
      rw [List.map_cons, hhead]
      simp [dlookup, h, ih]

theorem dlookup_map_overwrite_ne {α : Type} (d : List (String × α)) (k k' : String) (v : α)
    (h : k' ≠ k) :
    dlookup (d.map (fun p => if p.1 = k then (k, v) else p)) k' = dlookup d k' := by
  induction d with
  | nil => rfl
  | cons p rest ih =>
    obtain ⟨k0, v0⟩ := p
    by_cases h0 : k0 = k
    · subst h0
      have hhead : (if ((k0, v0) : String × α).1 = k0 then (k0, v) else (k0, v0)) =
          (k0, v) := by simp
      rw [List.map_cons, hhead]
      simp [dlookup, Ne.symm h, ih]
    · have hhead : (if ((k0, v0) : String × α).1 = k then (k, v) else (k0, v0)) =
          (k0, v0) := by simp [h0]
      rw [List.map_cons, hhead]
      simp [dlookup, ih]

theorem dlookup_dictInsert_self {α : Type} (d : List (String × α)) (k : String) (v : α) :
    dlookup (dictInsert d k v) k = some v := by
  unfold dictInsert
  by_cases h : (dlookup d k).isSome
  · rw [if_pos h, dlookup_map_overwrite, if_pos h]
  · rw [if_neg h, dlookup_append]
    have hn : dlookup d k = Option.none := by
      cases hd : dlookup d k with
      | none => rfl
      | some w => rw [hd] at h; simp at h
    simp [hn, dlookup]

theorem dlookup_dictInsert_ne {α : Type} (d : List (String × α)) (k k' : String) (v : α)
    (h : k' ≠ k) : dlookup (dictInsert d k v) k' = dlookup d k' := by
  unfold dictInsert
  by_cases hs : (dlookup d k).isSome
  · rw [if_pos hs]
    exact dlookup_map_overwrite_ne d k k' v h
  · rw [if_neg hs, dlookup_append]
    cases hd : dlookup d k' with
    | none => simp [dlookup, Ne.symm h]
    | some w => simp

theorem dlookup_dictUnion_not_mem {α : Type} (d2 d1 : List (String × α)) (k : String)
    (h : ∀ p ∈ d2, p.1 ≠ k) : dlookup (dictUnion d1 d2) k = dlookup d1 k := by
  revert h
  induction d2 generalizing d1 with
  | nil =>
    intro h
    simp [dictUnion]
  | cons p rest ih =>
    intro h
    obtain ⟨k0, v0⟩ := p
    have hk0 : k0 ≠ k := h (k0, v0) (by simp)
    have hrest : ∀ q ∈ rest, q.1 ≠ k := fun q hq => h q (by simp [hq])
    show dlookup (dictUnion (dictInsert d1 k0 v0) rest) k = dlookup d1 k
    rw [ih (dictInsert d1 k0 v0) hrest, dlookup_dictInsert_ne]
    exact Ne.symm hk0

theorem dlookup_dictUnion_of_nodup {α : Type} (d2 d1 : List (String × α)) (k : String)
    (v : α) (hnd : (d2.map Prod.fst).Nodup) (h : dlookup d2 k = some v) :
    dlookup (dictUnion d1 d2) k = some v := by
  revert hnd h
  induction d2 generalizing d1 with
  | nil =>
    intro hnd h
    simp [dlookup] at h
  | cons p rest ih =>
    intro hnd h
    obtain ⟨k0, v0⟩ := p
    simp only [List.map_cons, List.nodup_cons] at hnd
    obtain ⟨hk0notin, hndrest⟩ := hnd
    show dlookup (dictUnion (dictInsert d1 k0 v0) rest) k = some v
    by_cases hk : k0 = k
    · subst hk
      simp only [dlookup, if_pos rfl] at h
      obtain rfl : v0 = v := Option.some.inj h
      have hrest : ∀ q ∈ rest, q.1 ≠ k0 := by
        intro q hq heq
        exact hk0notin (heq ▸ List.mem_map_of_mem Prod.fst hq)
      rw [dlookup_dictUnion_not_mem rest (dictInsert d1 k0 v0) k0 hrest]
      exact dlookup_dictInsert_self d1 k0 v0
    · simp only [dlookup, if_neg hk] at h
      exact ih (dictInsert d1 k0 v0) hndrest h

/-
URL cursor parsing: NationBuilderV2._urlparse (nation_builder.py lines
307-328).  String processing is carried out on character lists so that
every step reduces in the kernel.  urllib.parse.urlparse is modelled for
the URLs this connector feeds it: relative references without a scheme
or authority component (links.next values such as
"/api/v2/people?page[size]=100"), for which CPython returns the text
before the first "?" (after removing a "#fragment") as path and the
text after it as query.
-/

/-- Split a character list at the first occurrence of c: some (before, after)
when c occurs, none otherwise. -/
def breakOnChar (c : Char) : List Char → Option (List Char × List Char)
  | [] => Option.none
  | x :: xs =>
    if x = c then some ([], xs)
    else
      match breakOnChar c xs with
      | some (a, b) => some (x :: a, b)
      | Option.none => Option.none

/-- Python str.split("&") on a (nonempty) query string. -/
def splitAmp : List Char → List (List Char)
  | [] => [[]]
  | x :: xs =>
    if x = '&' then [] :: splitAmp xs
    else
      match splitAmp xs with
      | [] => [[x]]
      | piece :: rest => (x :: piece) :: rest

/-- Python p.split("=", maxsplit 1): a pair [before, after] when "=" occurs
in p (splitting only at the first occurrence), the single piece [p]
otherwise. -/
def splitEq (p : List Char) : List String :=
  match breakOnChar '=' p with
  | some (a, b) => [String.mk a, String.mk b]
  | Option.none => [String.mk p]

/-- The path / query split performed by urllib.parse.urlparse on a
scheme-free relative reference: drop a "#fragment", then split at the
first "?". -/
def urlsplitPQ (url : List Char) : List Char × List Char :=
  let noFrag :=
    match breakOnChar '#' url with
    | some (a, _) => a
    | Option.none => url
  match breakOnChar '?' noFrag with
  | some (p, q) => (p, q)
  | Option.none => (noFrag, [])

/-- The prefix strip at the top of _urlparse: if url starts with
"/api/v2/", drop those 8 characters. -/
def stripApiV2 (url : List Char) : List Char :=
  if url.take 8 = "/api/v2/".toList then url.drop 8 else url

/-- The "&"-separated pieces of the query string of url, after the
prefix strip; empty when the query is empty ("if not query"). -/
def queryPieces (url : String) : List (List Char) :=
  let u := stripApiV2 url.toList
  let pq := urlsplitPQ u
  if pq.2 = [] then [] else splitAmp pq.2

/-- NationBuilderV2._urlparse with params_as_dict=False: the URL path and
the query pairs as a list of tuples, each piece split on its first "="
(a piece with no "=" yields a 1-tuple). -/
def urlparse_list (url : String) : String × List (List String) :=
  let u := stripApiV2 url.toList
  let pq := urlsplitPQ u
  (String.mk pq.1, (queryPieces url).map splitEq)

/-- Python dict(iterable-of-sequences): fold the sequences into a dict,
raising ValueError at the first sequence whose length is not 2. -/
def pairsToDict (acc : List (String × String)) :
    List (List String) → Except Err (List (String × String))
  | [] => Except.ok acc
  | [k, v] :: rest => pairsToDict (dictInsert acc k v) rest
  | _ :: _ => Except.error Err.valueError

/-- NationBuilderV2._urlparse with params_as_dict=True: the URL path and
the query pairs as a dict built by Python dict(...), which raises
ValueError on a pair that did not split in two. -/
def urlparse_dict (url : String) : Except Err (String × List (String × String)) :=
  let u := stripApiV2 url.toList
  let pq := urlsplitPQ u
  if pq.2 = [] then Except.ok (String.mk pq.1, [])
  else (pairsToDict [] ((splitAmp pq.2).map splitEq)).map
    (fun d => (String.mk pq.1, d))

/-- splitEq yields one piece exactly when the piece has no "=" character. -/
theorem splitEq_of_not_hasEq (p : List Char) (h : p.contains '=' = false) :
    splitEq p = [String.mk p] := by
  unfold splitEq
  have hb : breakOnChar '=' p = Option.none := by
    induction p with
    | nil => rfl
    | cons x xs ih =>
      simp only [List.contains_cons, Bool.or_eq_false_iff] at h
      obtain ⟨hx, hxs⟩ := h
      have hx' : ¬(x = '=') := by
        intro hh
        rw [hh] at hx
        simp at hx
      unfold breakOnChar
      rw [if_neg hx', ih hxs]
  rw [hb]

/-- splitEq always yields one or two pieces. -/
theorem splitEq_length (p : List Char) :
    (splitEq p).length = 1 ∨ (splitEq p).length = 2 := by
  unfold splitEq
  cases breakOnChar '=' p with
  | none => left; rfl
  | some ab =>
    obtain ⟨a, b⟩ := ab
    right; rfl

/-- A piece with an "=" splits in two. -/
theorem splitEq_of_hasEq (p : List Char) (h : p.contains '=' = true) :
    (splitEq p).length = 2 := by
  unfold splitEq
  have hb : ∃ ab, breakOnChar '=' p = some ab := by
    induction p with
    | nil => simp at h
    | cons x xs ih =>
      by_cases hx : x = '='
      · exact ⟨([], xs), by unfold breakOnChar; rw [if_pos hx]⟩
      · have hxs : xs.contains '=' = true := by
          simp only [List.contains_cons] at h
          rcases Bool.or_eq_true_iff.mp h with h1 | h2
          · exact absurd (by simpa using h1 : ('=' : Char) = x).symm hx
          · exact h2
        obtain ⟨⟨a, b⟩, hab⟩ := ih hxs
        refine ⟨(x :: a, b), ?_⟩
        unfold breakOnChar
        rw [if_neg hx, hab]
  obtain ⟨⟨a, b⟩, hab⟩ := hb
  rw [hab]
  rfl

/-- dict(...) raises ValueError as soon as some piece does not have
exactly two components. -/
theorem pairsToDict_error (ls : List (List String)) (acc : List (String × String))
    (h : ∃ it ∈ ls, it.length ≠ 2) :
    pairsToDict acc ls = Except.error Err.valueError := by
  induction ls generalizing acc with
  | nil => simp at h
  | cons it rest ih =>
    obtain ⟨bad, hbad, hlen⟩ := h
    match it with
    | [] => rfl
    | [a] => rfl
    | [a, b] =>
      rcases List.mem_cons.mp hbad with hh | hh
      · rw [hh] at hlen
        simp at hlen
      · exact ih (dictInsert acc a b) ⟨bad, hh, hlen⟩
    | a :: b :: c :: t => rfl

/-
Query parameter encoding: NationBuilderV2._params_formatter (lines
301-305), NationBuilderV2._param_builder (lines 272-299), and the
parameter handling at the top of NationBuilderV2.list_resource (lines
401-412).  The query items finally handed to the transport are a Python
list of tuples; since _urlparse can produce 1-tuples, an item is
modelled as a list of values.
-/

/-- A query item: a Python tuple of values (normally [key, value]). -/
abbrev QItems : Type := List (List PyVal)

/-- A [key, value] query tuple. -/
def qtuple (k : String) (v : PyVal) : List PyVal :=
  [PyVal.str k, v]

/-- Lookup of the first [key, value] query tuple with the given key. -/
def qlookup : QItems → String → Option PyVal
  | [], _ => Option.none
  | it :: rest, k =>
    match it with
    | [PyVal.str k0, v] => if k0 = k then some v else qlookup rest k
    | _ => qlookup rest k

/-- NationBuilderV2._params_formatter: falsy fields give the empty dict,
any truthy fields value is bound, unchanged, to "p[resource]". -/
def params_formatter (p resource : String) (fields : PyVal) : PyDict :=
  if pyTruthy fields = false then []
  else [(p ++ "[" ++ resource ++ "]", fields)]

/-- NationBuilderV2._param_builder: a falsy param dict gives no pairs; a
nested dict value emits one "name[key][operator]" pair per operator, any
other value one "name[key]" pair. -/
def param_builder (param_name : String) (param_dict : PyDict) : PyDict :=
  if param_dict.isEmpty then []
  else param_dict.flatMap fun p =>
    match p.2 with
    | PyVal.dict ops =>
      ops.map (fun q => (param_name ++ "[" ++ p.1 ++ "][" ++ q.1 ++ "]", q.2))
    | v => [(param_name ++ "[" ++ p.1 ++ "]", v)]

/-- The params argument of list_resource / upsert_resource:
None, a dict, or a list of tuples. -/
inductive ParamsArg where
  | nonearg : ParamsArg
  | dict : PyDict → ParamsArg
  | tuples : QItems → ParamsArg

/-- The query items list_resource sends with its GET (lines 401-412):
a falsy params argument becomes {}; a dict gets page[size] =
min(100, max(1, page_size)) assigned (and stats[total] = "count" when
count is set) and is turned into a list of items; a nonempty list of
tuples is passed through untouched; truthy filters append
_param_builder("filter", filters) pairs. -/
def list_resource_params (params : ParamsArg) (page_size : Int) (count : Bool)
    (filters : PyDict) : QItems :=
  let params1 : ParamsArg :=
    match params with
    | ParamsArg.nonearg => ParamsArg.dict []
    | ParamsArg.dict d => ParamsArg.dict d
    | ParamsArg.tuples l => if l.isEmpty then ParamsArg.dict [] else ParamsArg.tuples l
  let items : QItems :=
    match params1 with
    | ParamsArg.dict d =>
      let d1 := dictInsert d "page[size]" (PyVal.int (min 100 (max 1 page_size)))
      let d2 := if count then dictInsert d1 "stats[total]" (PyVal.str "count") else d1
      d2.map (fun p => qtuple p.1 p.2)
    | ParamsArg.tuples l => l
    | ParamsArg.nonearg => []
  if filters.isEmpty then items
  else items ++ (param_builder "filter" filters).map (fun p => qtuple p.1 p.2)

theorem qlookup_map_qtuple (d : PyDict) (k : String) :
    qlookup (d.map (fun p => qtuple p.1 p.2)) k = dlookup d k := by
  induction d with
  | nil => rfl
  | cons p rest ih =>
    obtain ⟨k0, v0⟩ := p
    simp only [qtuple] at ih
    by_cases h : k0 = k
    · simp [qlookup, qtuple, dlookup, h]
    · simp [qlookup, qtuple, dlookup, h, ih]

theorem qlookup_append_left (a b : QItems) (k : String) (v : PyVal)
    (h : qlookup a k = some v) : qlookup (a ++ b) k = some v := by
  induction a with
  | nil => simp [qlookup] at h
  | cons it rest ih =>
    match it with
    | [] =>
      simp only [qlookup] at h
      simpa [qlookup] using ih h
    | [PyVal.str k0, v0] =>
      by_cases hk : k0 = k
      · simp only [qlookup, if_pos hk] at h
        simpa [qlookup, hk] using h
      · simp only [qlookup, if_neg hk] at h
        simpa [qlookup, hk] using ih h
    | [PyVal.none, v0] =>
      simp only [qlookup] at h
      simpa [qlookup] using ih h
    | [PyVal.bool b0, v0] =>
      simp only [qlookup] at h
      simpa [qlookup] using ih h
    | [PyVal.int n0, v0] =>
      simp only [qlookup] at h
      simpa [qlookup] using ih h
    | [PyVal.list l0, v0] =>
      simp only [qlookup] at h
      simpa [qlookup] using ih h
    | [PyVal.dict d0, v0] =>
      simp only [qlookup] at h
      simpa [qlookup] using ih h
    | [x] =>
      simp only [qlookup] at h
      simpa [qlookup] using ih h
    | x :: y :: z :: t =>
      simp only [qlookup] at h
      simpa [qlookup] using ih h

/-
Record flattening: NationBuilderV2._to_table (lines 255-270).  The Table
collaborator is modelled by its rows; flatten1 is the comprehension body
{"id": i["id"], "type": i["type"]} | i.get("attributes", {}) - a missing
id or type key raises KeyError, a present non-dict attributes value
makes the dict union raise TypeError.
-/

/-- One step of _to_table: flatten a record into {id, type} merged (dict
union, last-write-wins) with its attributes; attributes defaults to {}. -/
def flatten1 (i : PyDict) : Except Err PyDict :=
  match dlookup i "id" with
  | Option.none => Except.error Err.keyError
  | some idv =>
    match dlookup i "type" with
    | Option.none => Except.error Err.keyError
    | some tyv =>
      match dlookup i "attributes" with
      | Option.none => Except.ok (dictUnion [("id", idv), ("type", tyv)] [])
      | some (PyVal.dict a) => Except.ok (dictUnion [("id", idv), ("type", tyv)] a)
      | some _ => Except.error Err.typeError

/-- NationBuilderV2._to_table: flatten every record, in order, raising at
the first bad record.  The resulting row list models the Table. -/
def to_table : List PyDict → Except Err (List PyDict)
  | [] => Except.ok []
  | i :: rest =>
    match flatten1 i, to_table rest with
    | Except.ok fi, Except.ok frest => Except.ok (fi :: frest)
    | Except.error e, _ => Except.error e
    | Except.ok _, Except.error e => Except.error e

theorem to_table_length (l : List PyDict) (t : List PyDict)
    (h : to_table l = Except.ok t) : t.length = l.length := by
  induction l generalizing t with
  | nil =>
    simp only [to_table] at h
    obtain rfl : ([] : List PyDict) = t := Except.ok.inj h
    rfl
  | cons i rest ih =>
    simp only [to_table] at h
    cases hf : flatten1 i with
    | error e => rw [hf] at h; exact absurd h (by simp)
    | ok fi =>
      rw [hf] at h
      cases hr : to_table rest with
      | error e => rw [hr] at h; exact absurd h (by simp)
      | ok frest =>
        rw [hr] at h
        obtain rfl : fi :: frest = t := Except.ok.inj h
        simp [ih frest hr]

/-
Pagination: NationBuilderV2._get_next (lines 330-343) and
NationBuilderV2._get_all (lines 345-362).  A page envelope {data: [...],
links: {next: url}} is the structure Page; next = none covers both a
missing links key and a links dict without next (the two cases in which
_get_next returns None).  The transport is the oracle
fetch : path → query items → Page.  The while-loop gets an explicit fuel
bound; the Nat result counts the follow-up transport fetches performed.
-/

/-- A page envelope: its data records and its links.next URL, if any. -/
structure Page where
  data : List PyDict
  next : Option String

/-- The fetch _get_next performs for a next-link: parse it with _urlparse
(params_as_dict=False) and GET the resulting path with the resulting
query tuples. -/
def cursorFetch (fetch : String → QItems → Page) (u : String) : Page :=
  let pc := urlparse_list u
  fetch pc.1 (pc.2.map (fun t => t.map PyVal.str))

/-- The while-loop of _get_all operating on the accumulated record list:
while limit <= 0 or len(data) < limit, follow the next link (stop when
there is none), appending the fetched page's records; returns the data
and the number of follow-up fetches. -/
def get_all_data (fetch : String → QItems → Page) (limit : Int) :
    Nat → List PyDict → Option String → Nat → Option (List PyDict × Nat)
  | 0, _, _, _ => Option.none
  | fuel + 1, data, nxt, n =>
    if limit ≤ 0 ∨ (data.length : Int) < limit then
      match nxt with
      | Option.none => some (data, n)
      | some u =>
        let page := cursorFetch fetch u
        get_all_data fetch limit fuel (data ++ page.data) page.next (n + 1)
    else some (data, n)

/-- NationBuilderV2._get_all: run the pagination loop from the first-page
envelope and flatten the accumulated records with _to_table.  The Nat is
the number of follow-up fetches. -/
def get_all (fetch : String → QItems → Page) (limit : Int) (fuel : Nat)
    (resp : Page) : Except Err (List PyDict × Nat) :=
  match get_all_data fetch limit fuel resp.data resp.next 0 with
  | Option.none => Except.error Err.fuelOut
  | some (data, n) =>
    match to_table data with
    | Except.ok t => Except.ok (t, n)
    | Except.error e => Except.error e

/-- A heap of Python list objects, addressed by Nat.  Used to make the
aliasing in _get_all explicit: data = resp["data"] binds the same list
object, and data += page["data"] extends it in place (list.__iadd__),
so the caller's envelope sees every appended record. -/
abbrev Heap : Type := Nat → List PyDict

/-- The _get_all loop with the data list kept on the heap at address a
(the address of the caller's resp["data"]): each iteration extends the
list object in place.  Returns the final heap and the follow-up fetch
count. -/
def get_all_heap (fetch : String → QItems → Page) (limit : Int) :
    Nat → Heap → Nat → Option String → Nat → Option (Heap × Nat)
  | 0, _, _, _, _ => Option.none
  | fuel + 1, heap, a, nxt, n =>
    if limit ≤ 0 ∨ ((heap a).length : Int) < limit then
      match nxt with
      | Option.none => some (heap, n)
      | some u =>
        let page := cursorFetch fetch u
        get_all_heap fetch limit fuel (Function.update heap a (heap a ++ page.data))
          a page.next (n + 1)
    else some (heap, n)

/-
Upsert: NationBuilderV2.upsert_resource (lines 529-549) and
NationBuilderV2.patch_signup (lines 935-952).  A network call is
modelled by the Request value a successful run hands to the transport;
an Except.error result is an exception raised before the transport is
reached.
-/

/-- The request a resource method hands to the transport. -/
structure Request where
  method : String
  url : String
  params : ParamsArg
  json : PyVal

/-- NationBuilderV2.upsert_resource: default the URL to "resource/push",
require payload to be a dict (else ValueError), wrap it as
{data: {type: resource, attributes: payload}} and PATCH it. -/
def upsert_resource (resource : String) (payload : PyVal) (params : ParamsArg)
    (url : String) : Except Err Request :=
  let url1 := if url = "" then resource ++ "/push" else url
  match payload with
  | PyVal.dict d =>
    Except.ok
      { method := "PATCH", url := url1, params := params,
        json := PyVal.dict [("data", PyVal.dict
          [("type", PyVal.str resource), ("attributes", PyVal.dict d)])] }
  | _ => Except.error Err.valueError

/-- The identifying keys listed in NationBuilderV2.patch_signup. -/
def required_keys : List String :=
  ["civicrm_id", "county_file_id", "dw_id", "external_id", "email",
   "facebook_username", "ngp_id", "salesforce_id", "twitter_login", "van_id"]

/-- NationBuilderV2.patch_signup: raise ValueError when the payload dict
contains none of the identifying keys, otherwise delegate to
upsert_resource("signups", ...). -/
def patch_signup (payload : PyDict) (params : ParamsArg) : Except Err Request :=
  let has_required_key := required_keys.any (fun x => dcontains payload x)
  if has_required_key = false then Except.error Err.valueError
  else upsert_resource "signups" (PyVal.dict payload) params ""

/-
Show and sideload: NationBuilderV2.show_resource (lines 423-466) and
NationBuilderV2.sideload_rescource (lines 468-483).  The initial GET's
JSON body is passed in as resp0 (the transport is external); the record
is its ["data"] entry.  A sideloaded Table is embedded back into PyVal
as the list of its flattened rows, so that the Python filter "if v"
(which keeps a Table only when it is truthy, i.e. has rows, and drops
None) is the pyTruthy test.  list_resource is run as it is invoked from
sideload_rescource: params from _urlparse, a url, all_results=True and
the remaining arguments at their defaults (page_size=100, limit=0,
count=False, no filters).
-/

/-- list_resource(resource, params=params, url=url, all_results=True)
with default page_size=100, limit=0, count=False, filters=None: build
the query items, GET the first page, paginate with _get_all. -/
def list_resource_exec (fetch : String → QItems → Page) (fuel : Nat)
    (resource : String) (params : ParamsArg) (url : String) :
    Except Err (List PyDict) :=
  let url1 := if url = "" then resource else url
  let qs := list_resource_params params 100 false []
  let page := fetch url1 qs
  match get_all fetch 0 fuel page with
  | Except.ok (t, _) => Except.ok t
  | Except.error e => Except.error e

/-- NationBuilderV2.sideload_rescource: read
resp["relationships"][resource]["links"]["related"] (each missing key a
KeyError, each non-dict container a TypeError), return None for a falsy
link, otherwise parse the link with _urlparse and fetch every page of it
through list_resource.  The Table result is embedded as PyVal.list of
its rows. -/
def sideload_rescource (fetch : String → QItems → Page) (fuel : Nat)
    (resp : PyDict) (resource : String) : Except Err PyVal :=
  match dlookup resp "relationships" with
  | Option.none => Except.error Err.keyError
  | some (PyVal.dict rels) =>
    match dlookup rels resource with
    | Option.none => Except.error Err.keyError
    | some (PyVal.dict rel) =>
      match dlookup rel "links" with
      | Option.none => Except.error Err.keyError
      | some (PyVal.dict links) =>
        match dlookup links "related" with
        | Option.none => Except.error Err.keyError
        | some link =>
          if pyTruthy link = false then Except.ok PyVal.none
          else
            match link with
            | PyVal.str s =>
              let pc := urlparse_list s
              match list_resource_exec fetch fuel resource
                  (ParamsArg.tuples (pc.2.map (fun t => t.map PyVal.str))) pc.1 with
              | Except.ok rows => Except.ok (PyVal.list (rows.map PyVal.dict))
              | Except.error e => Except.error e
            | _ => Except.error Err.typeError
      | some _ => Except.error Err.typeError
    | some _ => Except.error Err.typeError
  | some _ => Except.error Err.typeError

/-- The sideload argument of show_resource: False/True, one name, or a
list of names. -/
inductive Sideload where
  | bool : Bool → Sideload
  | str : String → Sideload
  | list : List String → Sideload

/-- The comprehension filter "sideload is True or r in sideload" after
the isinstance(str) conversion: none stands for the identical-True case
(match every name), some l for a list of names. -/
def condMatch (sel : Option (List String)) (r : String) : Bool :=
  match sel with
  | Option.none => true
  | some l => l.contains r

/-- The inner "for r in resp[relationships]" of the duplicated-loop dict
comprehension in show_resource (lines 459-464): assign
d[r] = sideload_rescource(resp, r) for every relationship name r,
stopping at the first raised error. -/
def comp_inner (call : String → Except Err PyVal) (d : PyDict) :
    List String → Except Err PyDict
  | [] => Except.ok d
  | r :: rest =>
    match call r with
    | Except.ok v => comp_inner call (dictInsert d r v) rest
    | Except.error e => Except.error e

/-- The outer "for r in resp[relationships] if ..." of the same dict
comprehension: for every name that passes the filter, rerun the inner
loop over all names. -/
def comp_outer (call : String → Except Err PyVal) (ks : List String)
    (sel : Option (List String)) (d : PyDict) : List String → Except Err PyDict
  | [] => Except.ok d
  | r1 :: rest =>
    if condMatch sel r1 then
      match comp_inner call d ks with
      | Except.ok d1 => comp_outer call ks sel d1 rest
      | Except.error e => Except.error e
    else comp_outer call ks sel d rest

/-- The whole dict comprehension building sideloaded_resources. -/
def sideload_comp (call : String → Except Err PyVal) (ks : List String)
    (sel : Option (List String)) : Except Err PyDict :=
  comp_outer call ks sel [] ks

/-- NationBuilderV2.show_resource from the point where the GET response
resp0 is in hand: take its ["data"] record; return it unchanged when
sideload is False; otherwise run the sideload comprehension over the
record's relationships and overwrite resp["relationships"] with the
truthy results.  (The sideload_params argument of the source is
defaulted and never used.) -/
def show_resource (fetch : String → QItems → Page) (fuel : Nat) (resp0 : PyVal)
    (sideload : Sideload) : Except Err PyDict :=
  match resp0 with
  | PyVal.dict env =>
    match dlookup env "data" with
    | Option.none => Except.error Err.keyError
    | some (PyVal.dict resp) =>
      match sideload with
      | Sideload.bool false => Except.ok resp
      | sl =>
        let sel : Option (List String) :=
          match sl with
          | Sideload.bool _ => Option.none
          | Sideload.str s => some [s]
          | Sideload.list l => some l
        match dlookup resp "relationships" with
        | Option.none => Except.error Err.keyError
        | some (PyVal.dict rels) =>
          match sideload_comp (fun r => sideload_rescource fetch fuel resp r)
              (rels.map (fun p => p.1)) sel with
          | Except.ok sideloaded =>
            Except.ok (dictInsert resp "relationships"
              (PyVal.dict (sideloaded.filter (fun p => pyTruthy p.2))))
          | Except.error e => Except.error e
        | some _ => Except.error Err.typeError
    | some _ => Except.error Err.typeError
  | _ => Except.error Err.typeError

/-
Claim theorems.
-/

/-- C1, counterexample: the generic upsert_resource, called on resource
"signups" with attributes {"name": "x"} - a dict containing none of the
configured identifying keys - does not raise: it builds the wrapped
payload and hands the PATCH request to the transport. -/
theorem c1_counterexample :
    required_keys.any (fun k => dcontains [("name", PyVal.str "x")] k) = false
    ∧ upsert_resource "signups" (PyVal.dict [("name", PyVal.str "x")])
        ParamsArg.nonearg ""
      = Except.ok
        { method := "PATCH", url := "signups/push", params := ParamsArg.nonearg,
          json := PyVal.dict [("data", PyVal.dict
            [("type", PyVal.str "signups"),
             ("attributes", PyVal.dict [("name", PyVal.str "x")])])] } :=
  ⟨rfl, rfl⟩

/-- C1, amended: upsert_resource itself performs no identifier-key
validation - for every dict payload it issues the PATCH to
resource/push; the identifying-key check lives in the signups wrapper
patch_signup, which raises ValueError before any transport call when
the payload contains none of the configured keys. -/
theorem c1_amended (payload : PyDict) (params : ParamsArg)
    (h : required_keys.any (fun k => dcontains payload k) = false) :
    patch_signup payload params = Except.error Err.valueError
    ∧ upsert_resource "signups" (PyVal.dict payload) params ""
      = Except.ok
        { method := "PATCH", url := "signups/push", params := params,
          json := PyVal.dict [("data", PyVal.dict
            [("type", PyVal.str "signups"),
             ("attributes", PyVal.dict payload)])] } := by
  constructor
  · simp [patch_signup, h]
  · rfl

/-- C1, witness: patch_signup on the identifier-free payload raises
before reaching the transport. -/
theorem c1_amended_witness :
    patch_signup [("name", PyVal.str "x")] ParamsArg.nonearg
      = Except.error Err.valueError :=
  (c1_amended [("name", PyVal.str "x")] ParamsArg.nonearg rfl).1

/-- C8, counterexample: _params_formatter hands a sequence of field
names through unchanged - the value bound to "fields[people]" is the
list itself, not the comma-joined string - and a non-string non-sequence
fields value (the int 7) is also passed through instead of raising
InvalidArgument. -/
theorem c8_counterexample :
    params_formatter "fields" "people" (PyVal.list [PyVal.str "a", PyVal.str "b"])
      = [("fields[people]", PyVal.list [PyVal.str "a", PyVal.str "b"])]
    ∧ PyVal.list [PyVal.str "a", PyVal.str "b"] ≠ PyVal.str "a,b"
    ∧ params_formatter "fields" "people" (PyVal.int 7)
      = [("fields[people]", PyVal.int 7)] :=
  ⟨rfl, fun h => PyVal.noConfusion h, rfl⟩

/-- C8, amended: _params_formatter returns {} for every falsy fields
value (None, "", []), and for every truthy fields value - string,
nonempty sequence (not comma-joined), or any other type (no
InvalidArgument) - returns the single binding "p[resource]" to that
value unchanged. -/
theorem c8_amended (p resource : String) :
    params_formatter p resource PyVal.none = []
    ∧ params_formatter p resource (PyVal.str "") = []
    ∧ params_formatter p resource (PyVal.list []) = []
    ∧ (∀ s : String, s ≠ "" →
        params_formatter p resource (PyVal.str s)
          = [(p ++ "[" ++ resource ++ "]", PyVal.str s)])
    ∧ (∀ l : List PyVal, l ≠ [] →
        params_formatter p resource (PyVal.list l)
          = [(p ++ "[" ++ resource ++ "]", PyVal.list l)])
    ∧ (∀ n : Int, n ≠ 0 →
        params_formatter p resource (PyVal.int n)
          = [(p ++ "[" ++ resource ++ "]", PyVal.int n)]) := by
  refine ⟨rfl, rfl, rfl, ?_, ?_, ?_⟩
  · intro s hs
    simp [params_formatter, pyTruthy, hs]
  · intro l hl
    simp [params_formatter, pyTruthy, hl]
  · intro n hn
    simp [params_formatter, pyTruthy, hn]

/-- C8, witness: a nonempty string field selection is bound as is. -/
theorem c8_amended_witness :
    params_formatter "fields" "people" (PyVal.str "x")
      = [("fields[people]", PyVal.str "x")] :=
  (c8_amended "fields" "people").2.2.2.1 "x" (by decide)

/-- C7, counterexample: when the params argument is a nonempty list of
tuples - an accepted shape per the source's type hints, and the shape
sideloading uses - list_resource leaves it untouched: with requested
page size 0 no page[size] item is added at all, instead of the claimed
clamped value 1. -/
theorem c7_counterexample :
    list_resource_params (ParamsArg.tuples [[PyVal.str "a", PyVal.str "b"]]) 0 false []
      = [[PyVal.str "a", PyVal.str "b"]]
    ∧ qlookup (list_resource_params
        (ParamsArg.tuples [[PyVal.str "a", PyVal.str "b"]]) 0 false []) "page[size]"
      = Option.none :=
  ⟨rfl, rfl⟩

/-- C7, amended: when params is absent or a dict, the query items sent
carry page[size] = min(100, max(1, r)) for every requested size r (so 0
becomes 1, 500 becomes 100, 42 stays 42); when params is a nonempty
list of tuples the clamp is skipped - the list is passed through with
only filter pairs appended and no page[size] item is introduced. -/
theorem c7_amended (d : PyDict) (r : Int) (count : Bool) (filters : PyDict) :
    qlookup (list_resource_params (ParamsArg.dict d) r count filters) "page[size]"
      = some (PyVal.int (min 100 (max 1 r)))
    ∧ qlookup (list_resource_params ParamsArg.nonearg r count filters) "page[size]"
      = some (PyVal.int (min 100 (max 1 r)))
    ∧ (∀ l : QItems, l.isEmpty = false →
        list_resource_params (ParamsArg.tuples l) r count filters
          = (if filters.isEmpty then l
             else l ++ (param_builder "filter" filters).map (fun p => qtuple p.1 p.2)))
    ∧ min 100 (max 1 (0 : Int)) = 1
    ∧ min 100 (max 1 (500 : Int)) = 100
    ∧ min 100 (max 1 (42 : Int)) = 42 := by
  have hdict : ∀ d0 : PyDict,
      qlookup (list_resource_params (ParamsArg.dict d0) r count filters) "page[size]"
        = some (PyVal.int (min 100 (max 1 r))) := by
    intro d0
    unfold list_resource_params
    have hps : dlookup
        (if count then
          dictInsert (dictInsert d0 "page[size]" (PyVal.int (min 100 (max 1 r))))
            "stats[total]" (PyVal.str "count")
        else dictInsert d0 "page[size]" (PyVal.int (min 100 (max 1 r))))
        "page[size]" = some (PyVal.int (min 100 (max 1 r))) := by
      cases count with
      | false =>
        show dlookup (dictInsert d0 "page[size]" (PyVal.int (min 100 (max 1 r))))
          "page[size]" = some (PyVal.int (min 100 (max 1 r)))
        exact dlookup_dictInsert_self d0 "page[size]" (PyVal.int (min 100 (max 1 r)))
      | true =>
        show dlookup (dictInsert
            (dictInsert d0 "page[size]" (PyVal.int (min 100 (max 1 r))))
            "stats[total]" (PyVal.str "count")) "page[size]"
          = some (PyVal.int (min 100 (max 1 r)))
        rw [dlookup_dictInsert_ne _ "stats[total]" "page[size]" _ (by decide)]
        exact dlookup_dictInsert_self d0 "page[size]" (PyVal.int (min 100 (max 1 r)))
    by_cases hfe : filters.isEmpty
    · rw [if_pos hfe, qlookup_map_qtuple]
      exact hps
    · rw [if_neg hfe]
      exact qlookup_append_left _ _ _ _ (by rw [qlookup_map_qtuple]; exact hps)
  refine ⟨hdict d, ?_, ?_, by decide, by decide, by decide⟩
  · have hsame : list_resource_params ParamsArg.nonearg r count filters
        = list_resource_params (ParamsArg.dict []) r count filters := rfl
    rw [hsame]
    exact hdict []
  · intro l hl
    unfold list_resource_params
    simp only [hl]
    rfl

/-- C7, witness: with an empty params dict and requested page size 0 the
items sent carry page[size] = 1, and a nonempty tuples list with
requested size 0 and no filters is passed through unchanged. -/
theorem c7_amended_witness :
    qlookup (list_resource_params (ParamsArg.dict []) 0 false []) "page[size]"
      = some (PyVal.int 1)
    ∧ list_resource_params (ParamsArg.tuples [[PyVal.str "a", PyVal.str "c"]]) 0 false []
      = [[PyVal.str "a", PyVal.str "c"]] :=
  ⟨(c7_amended [] 0 false []).1,
   ((c7_amended [] 0 false []).2.2.1 [[PyVal.str "a", PyVal.str "c"]] rfl)⟩

/-- C9: flattening a record with id and type keys yields {id, type}
merged with its attributes dict, where an attribute key colliding with
id or type wins (last-write-wins), and a record with no attributes key
flattens to exactly {id, type} without raising. -/
theorem c9_flatten (i : PyDict) (idv tyv : PyVal)
    (hid : dlookup i "id" = some idv) (hty : dlookup i "type" = some tyv) :
    (dlookup i "attributes" = Option.none →
      flatten1 i = Except.ok [("id", idv), ("type", tyv)])
    ∧ ∀ a : PyDict, dlookup i "attributes" = some (PyVal.dict a) →
        (a.map Prod.fst).Nodup →
        flatten1 i = Except.ok (dictUnion [("id", idv), ("type", tyv)] a)
        ∧ ∀ k v, dlookup a k = some v →
            dlookup (dictUnion [("id", idv), ("type", tyv)] a) k = some v := by
  constructor
  · intro hattr
    unfold flatten1
    rw [hid, hty, hattr]
    rfl
  · intro a hattr hnd
    constructor
    · unfold flatten1
      rw [hid, hty, hattr]
    · intro k v hkv
      exact dlookup_dictUnion_of_nodup a [("id", idv), ("type", tyv)] k v hnd hkv

/-- C9, witness: a record whose attributes collide on "id" flattens with
the attribute value winning, and a record without attributes flattens to
exactly {id, type}. -/
theorem c9_flatten_witness :
    flatten1 [("id", PyVal.int 1), ("type", PyVal.str "people"),
        ("attributes", PyVal.dict [("id", PyVal.str "clash"), ("x", PyVal.int 5)])]
      = Except.ok [("id", PyVal.str "clash"), ("type", PyVal.str "people"),
          ("x", PyVal.int 5)]
    ∧ flatten1 [("id", PyVal.int 1), ("type", PyVal.str "people")]
      = Except.ok [("id", PyVal.int 1), ("type", PyVal.str "people")] :=
  ⟨((c9_flatten [("id", PyVal.int 1), ("type", PyVal.str "people"),
        ("attributes", PyVal.dict [("id", PyVal.str "clash"), ("x", PyVal.int 5)])]
      (PyVal.int 1) (PyVal.str "people") rfl rfl).2
      [("id", PyVal.str "clash"), ("x", PyVal.int 5)] rfl (by decide)).1,
   (c9_flatten [("id", PyVal.int 1), ("type", PyVal.str "people")]
      (PyVal.int 1) (PyVal.str "people") rfl rfl).1 rfl⟩

/-- C4, counterexample: in list-of-tuples mode _urlparse does not raise
on a query pair with no "=" - the malformed pair is silently included as
a 1-tuple (dict mode does raise on the same URL). -/
theorem c4_counterexample :
    urlparse_list "people?foo" = ("people", [["foo"]])
    ∧ urlparse_dict "people?foo" = Except.error Err.valueError :=
  ⟨rfl, rfl⟩

/-- C4, amended: for every next-page URL whose query contains a pair
with no "=", only the params-as-dict mode raises (the ValueError from
Python dict construction); the list-of-tuples mode returns normally,
keeping one tuple per "&"-piece - the malformed pair is included as the
1-tuple [piece], not dropped. -/
theorem c4_amended (url : String)
    (h : ∃ p ∈ queryPieces url, p.contains '=' = false) :
    urlparse_dict url = Except.error Err.valueError
    ∧ (urlparse_list url).2.length = (queryPieces url).length
    ∧ ∀ p ∈ queryPieces url, p.contains '=' = false →
        [String.mk p] ∈ (urlparse_list url).2 := by
  obtain ⟨p0, hp0mem, hp0⟩ := h
  have hlist2 : (urlparse_list url).2 = (queryPieces url).map splitEq := rfl
  refine ⟨?_, by rw [hlist2, List.length_map], ?_⟩
  · have hqne : queryPieces url ≠ [] := by
      intro hq
      rw [hq] at hp0mem
      exact absurd hp0mem (List.not_mem_nil p0)
    simp only [urlparse_dict]
    unfold queryPieces at hqne hp0mem
    by_cases hpq : (urlsplitPQ (stripApiV2 url.toList)).2 = []
    · rw [if_pos hpq] at hqne
      exact absurd rfl hqne
    · rw [if_neg hpq] at hp0mem
      rw [if_neg hpq]
      have herr : pairsToDict []
          ((splitAmp (urlsplitPQ (stripApiV2 url.toList)).2).map splitEq)
          = Except.error Err.valueError := by
        apply pairsToDict_error
        refine ⟨splitEq p0, List.mem_map_of_mem splitEq hp0mem, ?_⟩
        rw [splitEq_of_not_hasEq p0 hp0]
        simp
      rw [herr]
      rfl
  · intro p hpmem hpeq
    rw [hlist2, ← splitEq_of_not_hasEq p hpeq]
    exact List.mem_map_of_mem splitEq hpmem

/-- C4, witness: the URL "people?foo&a=1" carries the malformed pair
"foo"; dict mode raises on it while list mode keeps both pairs. -/
theorem c4_amended_witness :
    urlparse_dict "people?foo&a=1" = Except.error Err.valueError
    ∧ (urlparse_list "people?foo&a=1").2.length
      = (queryPieces "people?foo&a=1").length :=
  ⟨(c4_amended "people?foo&a=1" (by decide)).1,
   (c4_amended "people?foo&a=1" (by decide)).2.1⟩

/-- One iteration of the _get_all loop when the continue condition holds
and a next link exists. -/
theorem get_all_data_step (fetch : String → QItems → Page) (limit : Int)
    (fuel : Nat) (data : List PyDict) (u : String) (n : Nat)
    (hc : limit ≤ 0 ∨ (data.length : Int) < limit) :
    get_all_data fetch limit (fuel + 1) data (some u) n
      = get_all_data fetch limit fuel (data ++ (cursorFetch fetch u).data)
          (cursorFetch fetch u).next (n + 1) := by
  simp only [get_all_data]
  rw [if_pos hc]

/-- The _get_all loop stops, keeping its data, when no next link exists. -/
theorem get_all_data_stop_none (fetch : String → QItems → Page) (limit : Int)
    (fuel : Nat) (data : List PyDict) (n : Nat)
    (hc : limit ≤ 0 ∨ (data.length : Int) < limit) :
    get_all_data fetch limit (fuel + 1) data Option.none n = some (data, n) := by
  simp only [get_all_data]
  rw [if_pos hc]

/-- The _get_all loop stops, keeping its data, once the accumulated
length reaches a positive limit - without looking at the next link. -/
theorem get_all_data_stop_limit (fetch : String → QItems → Page) (limit : Int)
    (fuel : Nat) (data : List PyDict) (nxt : Option String) (n : Nat)
    (hc : ¬(limit ≤ 0 ∨ (data.length : Int) < limit)) :
    get_all_data fetch limit (fuel + 1) data nxt n = some (data, n) := by
  simp only [get_all_data]
  rw [if_neg hc]

/-- Evaluate _get_all from an evaluated loop result and an evaluated
flattening. -/
theorem get_all_eval (fetch : String → QItems → Page) (limit : Int) (fuel : Nat)
    (resp : Page) (data t : List PyDict) (n : Nat)
    (hd : get_all_data fetch limit fuel resp.data resp.next 0 = some (data, n))
    (ht : to_table data = Except.ok t) :
    get_all fetch limit fuel resp = Except.ok (t, n) := by
  unfold get_all
  rw [hd]
  show (match to_table data with
    | Except.ok t0 => Except.ok (t0, n)
    | Except.error e => Except.error e) = Except.ok (t, n)
  rw [ht]

/-- C5: on a three-page chain whose last page has no next link, _get_all
with limit 0 follows each next link once - exactly 2 follow-up fetches -
and returns the flattened concatenation, in order, of the three pages'
data. -/
theorem c5_pagination (fetch : String → QItems → Page) (fuel : Nat)
    (p1 p2 p3 : Page) (u1 u2 : String) (t : List PyDict)
    (h1 : p1.next = some u1) (h2 : cursorFetch fetch u1 = p2)
    (h3 : p2.next = some u2) (h4 : cursorFetch fetch u2 = p3)
    (h5 : p3.next = Option.none) (hf : 3 ≤ fuel)
    (ht : to_table (p1.data ++ p2.data ++ p3.data) = Except.ok t) :
    get_all fetch 0 fuel p1 = Except.ok (t, 2) := by
  obtain ⟨k, rfl⟩ : ∃ k, fuel = k + 1 + 1 + 1 := ⟨fuel - 3, by omega⟩
  refine get_all_eval fetch 0 (k + 1 + 1 + 1) p1 (p1.data ++ p2.data ++ p3.data)
    t 2 ?_ ht
  rw [h1,
    get_all_data_step fetch 0 (k + 1 + 1) p1.data u1 0 (Or.inl le_rfl),
    h2, h3,
    get_all_data_step fetch 0 (k + 1) (p1.data ++ p2.data) u2 1 (Or.inl le_rfl),
    h4, h5,
    get_all_data_stop_none fetch 0 k (p1.data ++ p2.data ++ p3.data) 2
      (Or.inl le_rfl)]

/-- C5, witness: a concrete three-page chain. -/
def rowC5a : PyDict := [("id", PyVal.int 1), ("type", PyVal.str "t")]

def rowC5b : PyDict := [("id", PyVal.int 2), ("type", PyVal.str "t")]

def rowC5c : PyDict := [("id", PyVal.int 3), ("type", PyVal.str "t")]

def pageC5c : Page := { data := [rowC5c], next := Option.none }

def pageC5b : Page := { data := [rowC5b], next := some "u2" }

def pageC5a : Page := { data := [rowC5a], next := some "u1" }

def fetchC5 : String → QItems → Page := fun url _ =>
  if url = "u1" then pageC5b
  else if url = "u2" then pageC5c
  else { data := [], next := Option.none }

theorem c5_pagination_witness :
    get_all fetchC5 0 3 pageC5a = Except.ok ([rowC5a, rowC5b, rowC5c], 2) :=
  c5_pagination fetchC5 3 pageC5a pageC5b pageC5c "u1" "u2"
    [rowC5a, rowC5b, rowC5c] rfl rfl rfl rfl rfl (by norm_num) rfl

/-- C6: with pages of 10 records each and limit 15, _get_all performs
exactly 1 follow-up fetch and returns all 20 accumulated records - it
stops as soon as the accumulated count reaches the limit but does not
truncate mid-page. -/
theorem c6_limit (fetch : String → QItems → Page) (fuel : Nat)
    (p1 p2 : Page) (u1 : String) (t : List PyDict)
    (h1 : p1.next = some u1) (h2 : cursorFetch fetch u1 = p2)
    (hl1 : p1.data.length = 10) (hl2 : p2.data.length = 10) (hf : 2 ≤ fuel)
    (ht : to_table (p1.data ++ p2.data) = Except.ok t) :
    get_all fetch 15 fuel p1 = Except.ok (t, 1) ∧ t.length = 20 := by
  constructor
  · obtain ⟨k, rfl⟩ : ∃ k, fuel = k + 1 + 1 := ⟨fuel - 2, by omega⟩
    refine get_all_eval fetch 15 (k + 1 + 1) p1 (p1.data ++ p2.data) t 1 ?_ ht
    rw [h1,
      get_all_data_step fetch 15 (k + 1) p1.data u1 0
        (Or.inr (by rw [hl1]; norm_num)),
      h2,
      get_all_data_stop_limit fetch 15 k (p1.data ++ p2.data) p2.next 1
        (by rw [List.length_append, hl1, hl2]; norm_num)]
  · rw [to_table_length (p1.data ++ p2.data) t ht, List.length_append, hl1, hl2]

/-- C6, witness: two concrete 10-record pages with limit 15. -/
def rowC6 : PyDict := [("id", PyVal.int 7), ("type", PyVal.str "t")]

def pageC6b : Page := { data := List.replicate 10 rowC6, next := Option.none }

def pageC6a : Page := { data := List.replicate 10 rowC6, next := some "u1" }

def fetchC6 : String → QItems → Page := fun _ _ => pageC6b

theorem c6_limit_witness :
    get_all fetchC6 15 2 pageC6a = Except.ok (List.replicate 20 rowC6, 1)
    ∧ (List.replicate 20 rowC6).length = 20 :=
  c6_limit fetchC6 2 pageC6a pageC6b "u1" (List.replicate 20 rowC6)
    rfl rfl rfl rfl (by norm_num) rfl

/-- One iteration of the _get_all loop in the heap model: the list
object at address a is extended in place with the fetched page's
records. -/
theorem get_all_heap_step (fetch : String → QItems → Page) (limit : Int)
    (fuel : Nat) (heap : Heap) (a : Nat) (u : String) (n : Nat)
    (hc : limit ≤ 0 ∨ ((heap a).length : Int) < limit) :
    get_all_heap fetch limit (fuel + 1) heap a (some u) n
      = get_all_heap fetch limit fuel
          (Function.update heap a (heap a ++ (cursorFetch fetch u).data)) a
          (cursorFetch fetch u).next (n + 1) := by
  simp only [get_all_heap]
  rw [if_pos hc]

/-- The heap-model loop stops when no next link exists. -/
theorem get_all_heap_stop_none (fetch : String → QItems → Page) (limit : Int)
    (fuel : Nat) (heap : Heap) (a : Nat) (n : Nat)
    (hc : limit ≤ 0 ∨ ((heap a).length : Int) < limit) :
    get_all_heap fetch limit (fuel + 1) heap a Option.none n = some (heap, n) := by
  simp only [get_all_heap]
  rw [if_pos hc]

/-- C10: on a three-page chain with limit 0, the caller's first-page
envelope is mutated: data = resp["data"] aliases the caller's list and
data += page["data"] extends it in place, so after _get_all the list at
the caller's address holds the full accumulation - the first page's
records followed by every subsequent page's records - with 2 follow-up
fetches performed. -/
theorem c10_mutation (fetch : String → QItems → Page) (fuel : Nat)
    (heap : Heap) (a : Nat) (p2 p3 : Page) (u1 u2 : String)
    (h2 : cursorFetch fetch u1 = p2) (h3 : p2.next = some u2)
    (h4 : cursorFetch fetch u2 = p3) (h5 : p3.next = Option.none)
    (hf : 3 ≤ fuel) :
    ∃ hp : Heap, get_all_heap fetch 0 fuel heap a (some u1) 0 = some (hp, 2)
      ∧ hp a = heap a ++ p2.data ++ p3.data := by
  obtain ⟨k, rfl⟩ : ∃ k, fuel = k + 1 + 1 + 1 := ⟨fuel - 3, by omega⟩
  rw [get_all_heap_step fetch 0 (k + 1 + 1) heap a u1 0 (Or.inl le_rfl), h2, h3]
  rw [get_all_heap_step fetch 0 (k + 1)
      (Function.update heap a (heap a ++ p2.data)) a u2 1 (Or.inl le_rfl), h4, h5]
  rw [get_all_heap_stop_none fetch 0 k _ a 2 (Or.inl le_rfl)]
  refine ⟨_, rfl, ?_⟩
  simp [Function.update_same, List.append_assoc]

/-- C10, witness: a concrete three-page chain in the heap model. -/
def rowC10a : PyDict := [("id", PyVal.int 1), ("type", PyVal.str "t")]

def rowC10b : PyDict := [("id", PyVal.int 2), ("type", PyVal.str "t")]

def rowC10c : PyDict := [("id", PyVal.int 3), ("type", PyVal.str "t")]

def pageC10c : Page := { data := [rowC10c], next := Option.none }

def pageC10b : Page := { data := [rowC10b], next := some "u2" }

def heapC10 : Heap := fun _ => [rowC10a]

def fetchC10 : String → QItems → Page := fun url _ =>
  if url = "u1" then pageC10b
  else if url = "u2" then pageC10c
  else { data := [], next := Option.none }

theorem c10_mutation_witness :
    ∃ hp : Heap, get_all_heap fetchC10 0 3 heapC10 0 (some "u1") 0 = some (hp, 2)
      ∧ hp 0 = [rowC10a, rowC10b, rowC10c] :=
  c10_mutation fetchC10 3 heapC10 0 pageC10b pageC10c "u1" "u2"
    rfl rfl rfl rfl (by norm_num)

/-- C2 fixture: a record with two relationships, both with related
links. -/
def rowC2a : PyDict := [("id", PyVal.int 10), ("type", PyVal.str "ta")]

def rowC2b : PyDict := [("id", PyVal.int 20), ("type", PyVal.str "tb")]

def recC2 : PyDict :=
  [("id", PyVal.int 1), ("type", PyVal.str "s"),
   ("relationships", PyVal.dict
     [("a", PyVal.dict [("links", PyVal.dict [("related", PyVal.str "aaa")])]),
      ("b", PyVal.dict [("links", PyVal.dict [("related", PyVal.str "bbb")])])])]

def envC2 : PyVal := PyVal.dict [("data", PyVal.dict recC2)]

def fetchC2 : String → QItems → Page := fun url _ =>
  if url = "aaa" then { data := [rowC2a], next := Option.none }
  else { data := [rowC2b], next := Option.none }

/-- C2: show with the selector ["a"] on a record whose relationships are
"a" and "b" resolves and attaches BOTH relationships - "b" does not
match the selector, yet its related link is fetched and its table
attached, because the comprehension's duplicated
"for r in resp[relationships]" clause rebinds r over every relationship
once any name matches. -/
theorem c2_sideload_eval :
    (["a"] : List String).contains "b" = false
    ∧ show_resource fetchC2 2 envC2 (Sideload.list ["a"])
      = Except.ok (dictInsert recC2 "relationships" (PyVal.dict
          [("a", PyVal.list [PyVal.dict rowC2a]),
           ("b", PyVal.list [PyVal.dict rowC2b])])) :=
  ⟨rfl, rfl⟩

/-- C3 fixture: a record whose single relationship has a links dict with
no "related" key. -/
def recC3 : PyDict :=
  [("id", PyVal.int 1), ("type", PyVal.str "x"),
   ("relationships", PyVal.dict [("a", PyVal.dict [("links", PyVal.dict [])])])]

def envC3 : PyVal := PyVal.dict [("data", PyVal.dict recC3)]

def fetchC3 : String → QItems → Page := fun _ _ =>
  { data := [], next := Option.none }

/-- C3, counterexample: a selected relationship whose links dict has no
"related" key is not skipped - show raises KeyError instead of
returning the record. -/
theorem c3_counterexample :
    show_resource fetchC3 1 envC3 (Sideload.bool true)
      = Except.error Err.keyError :=
  rfl

/-- C3, amended: a selected relationship whose related link is null
(None) is skipped without error: show still returns the record and the
relationship contributes no sideloaded table (the relationships dict of
the result is empty); but a missing links/related key raises KeyError
(see the counterexample). -/
theorem c3_amended (fetch : String → QItems → Page) (fuel : Nat)
    (env rec : PyDict) (r : String)
    (hdata : dlookup env "data" = some (PyVal.dict rec))
    (hrel : dlookup rec "relationships" = some (PyVal.dict
      [(r, PyVal.dict [("links", PyVal.dict [("related", PyVal.none)])])])) :
    show_resource fetch fuel (PyVal.dict env) (Sideload.bool true)
      = Except.ok (dictInsert rec "relationships" (PyVal.dict [])) := by
  have hcall : sideload_rescource fetch fuel rec r = Except.ok PyVal.none := by
    unfold sideload_rescource
    rw [hrel]
    simp [dlookup, pyTruthy]
  unfold show_resource
  simp [hdata, hrel, hcall, sideload_comp, comp_outer, comp_inner, condMatch,
    dictInsert, dlookup, pyTruthy]

/-- C3, witness: a concrete record with one null-linked relationship. -/
def recC3n : PyDict :=
  [("id", PyVal.int 1), ("type", PyVal.str "x"),
   ("relationships", PyVal.dict
     [("a", PyVal.dict [("links", PyVal.dict [("related", PyVal.none)])])])]

theorem c3_amended_witness :
    show_resource fetchC3 1 (PyVal.dict [("data", PyVal.dict recC3n)])
      (Sideload.bool true)
      = Except.ok (dictInsert recC3n "relationships" (PyVal.dict [])) :=
  c3_amended fetchC3 1 [("data", PyVal.dict recC3n)] recC3n "a" rfl rfl
